import Mathlib

/-!
# zvec C boundary layer — verification of the spec against the source

Shallow embedding of the `zvec-c-wrapper` boundary layer
(`src/zvec-c-wrapper/src/{status,doc,query,collection,init}.cpp` plus
`zvec_c_internal.h`).  C pointers are modelled as `Option`: `none` is the
null pointer.  A C function whose execution would dereference a null
pointer (or otherwise hit undefined behaviour) is modelled as returning
`none` at its outermost `Option`.  Out-parameters are modelled as an
explicit `Option` component of the result: `none` means the out-parameter
was left untouched.  Heap-allocated C strings are modelled by their
contents.

The engine (`zvec::Collection`, `zvec::Doc`, …) is an external
collaborator that is not part of this repository's sources; where a claim
depends on its behaviour it is modelled from the spec (see the
`Modelled from the spec:` doc comments) and quantified over.
-/

namespace ZvecC

/-- fp32 payloads cross this boundary bit-for-bit: the wrapper only copies
them (`memcpy`, value assignment) and never performs float arithmetic, so
each fp32 value is modelled as an opaque 32-bit pattern. -/
abbrev F32 := Nat

/-- fp64 payloads, likewise opaque 64-bit patterns. -/
abbrev F64 := Nat

/-- `zvec_status_code_t` from `zvec_c.h` (values 0–8). -/
inductive zvec_status_code where
  | OK
  | NOT_FOUND
  | ALREADY_EXISTS
  | INVALID_ARGUMENT
  | NOT_SUPPORTED
  | INTERNAL_ERROR
  | PERMISSION_DENIED
  | FAILED_PRECONDITION
  | UNKNOWN
deriving DecidableEq, Repr

/-- `zvec_status_t`: code plus the (possibly null) heap-allocated message. -/
structure zvec_status where
  code : zvec_status_code
  message : Option String
deriving DecidableEq, Repr

/-- `zvec_wrapper::ok_status()` from `zvec_c_internal.h`. -/
def ok_status : zvec_status := { code := .OK, message := none }

/-- Modelled from the spec: `zvec::Status`, the engine's status type
(engine header, not under `src/`): a code from the same closed enum plus a
message string (empty on success). -/
structure ZStatus where
  code : zvec_status_code
  message : String
deriving DecidableEq, Repr

/-- `zvec_wrapper::to_c_status` from `zvec_c_internal.h`: the code is
cast across (the enums coincide) and an empty engine message becomes a
null C message, a non-empty one a `strdup` copy. -/
def to_c_status (s : ZStatus) : zvec_status :=
  { code := s.code, message := if s.message = "" then none else some s.message }

/-- The locally generated `INVALID_ARGUMENT` status used by the wrapper's
argument checks with the given `strdup`-ed message. -/
def local_invalid (msg : String) : zvec_status :=
  { code := .INVALID_ARGUMENT, message := some msg }

/-- Modelled from the spec: the tagged per-field value of the engine's
`zvec::Doc` (engine class, not under `src/`; spec §3 "Document" and §4.3).
Tags follow the C++ payload types the wrapper passes to `Doc::set`, so
`zvec_doc_set_vector_int32` and `zvec_doc_set_array_int32` (both storing a
`std::vector<int32_t>`) share one tag, as in the source. -/
inductive FieldValue where
  | boolV (b : Bool)
  | int32V (v : Int)
  | int64V (v : Int)
  | uint32V (v : Nat)
  | uint64V (v : Nat)
  | floatV (v : F32)
  | doubleV (v : F64)
  | stringV (s : String)
  | vecF32 (xs : List F32)
  | vecF64 (xs : List F64)
  | vecI8 (xs : List Int)
  | vecI16 (xs : List Int)
  | vecI32 (xs : List Int)
  | vecI64 (xs : List Int)
  | vecStr (xs : List String)
  | sparseF32 (indices : List Nat) (values : List F32)
  | nullV
deriving DecidableEq, Repr

/-- Association-list update used by the document field map: overwrite the
entry for `n` if present, else append. -/
def setField : List (String × FieldValue) → String → FieldValue → List (String × FieldValue)
  | [], n, v => [(n, v)]
  | (k, w) :: rest, n, v =>
      if k = n then (n, v) :: rest else (k, w) :: setField rest n v

/-- Association-list lookup for the document field map. -/
def lookupField : List (String × FieldValue) → String → Option FieldValue
  | [], _ => none
  | (k, w) :: rest, n => if k = n then some w else lookupField rest n

/-- Modelled from the spec: the engine's `zvec::Doc` (engine class, not
under `src/`; spec §3): primary key, numeric id, relevance score and a
field-name → tagged-value map where a name maps to at most one value. -/
structure Doc where
  pk : String := ""
  doc_id : Nat := 0
  score : F32 := 0
  fields : List (String × FieldValue) := []
deriving DecidableEq, Repr

/-- Modelled from the spec: `Doc::set` — unconditional overwrite, changing
the field's tag and value (spec §4.3). -/
def Doc.set (d : Doc) (name : String) (v : FieldValue) : Doc :=
  { d with fields := setField d.fields name v }

/-- The tagged value currently held by a field, if any. -/
def Doc.getTag (d : Doc) (name : String) : Option FieldValue :=
  lookupField d.fields name

/-- Modelled from the spec: `Doc::has` — the field entry exists, with any
tag including null (spec §4.3). -/
def Doc.has (d : Doc) (name : String) : Bool :=
  (lookupField d.fields name).isSome

/-- `Doc::get<bool>`: fails closed on absence or tag mismatch. -/
def asBool : FieldValue → Option Bool
  | .boolV b => some b
  | _ => none

/-- `Doc::get<int32_t>` tag projection. -/
def asInt32 : FieldValue → Option Int
  | .int32V v => some v
  | _ => none

/-- `Doc::get<int64_t>` tag projection. -/
def asInt64 : FieldValue → Option Int
  | .int64V v => some v
  | _ => none

/-- `Doc::get<uint32_t>` tag projection. -/
def asUInt32 : FieldValue → Option Nat
  | .uint32V v => some v
  | _ => none

/-- `Doc::get<uint64_t>` tag projection. -/
def asUInt64 : FieldValue → Option Nat
  | .uint64V v => some v
  | _ => none

/-- `Doc::get<float>` tag projection. -/
def asFloat : FieldValue → Option F32
  | .floatV v => some v
  | _ => none

/-- `Doc::get<double>` tag projection. -/
def asDouble : FieldValue → Option F64
  | .doubleV v => some v
  | _ => none

/-- `Doc::get<std::string>` tag projection. -/
def asString : FieldValue → Option String
  | .stringV s => some s
  | _ => none

/-- `Doc::get<std::vector<float>>` tag projection. -/
def asVecF32 : FieldValue → Option (List F32)
  | .vecF32 xs => some xs
  | _ => none

/-- Modelled from the spec: the engine-level typed getter
`Doc::get<uint32_t>` (spec §4.3: fails closed, `optional<T>`). -/
def Doc.getUInt32 (d : Doc) (name : String) : Option Nat :=
  (d.getTag name).bind asUInt32

/-- Modelled from the spec: the engine-level typed getter
`Doc::get<uint64_t>` (spec §4.3). -/
def Doc.getUInt64 (d : Doc) (name : String) : Option Nat :=
  (d.getTag name).bind asUInt64

/-- `struct zvec_doc` from `zvec_c_internal.h`: a shared pointer to the
engine document plus the ownership tag.  The `mutable std::string
string_cache` member is declared there but never read or written by any
function in the sources, so it is omitted here. -/
structure DocHandle where
  ptr : Option Doc
  owned : Bool
deriving DecidableEq, Repr

/-- `zvec_doc_new` from `doc.cpp`: a fresh, exclusively owned, empty
document. -/
def zvec_doc_new : DocHandle :=
  { ptr := some {}, owned := true }

/-- `zvec_doc_free` from `doc.cpp`: `if (doc && doc->owned) delete doc;`.
The returned Bool records whether the wrapper handle was deallocated. -/
def zvec_doc_free : Option DocHandle → Bool
  | some dh => dh.owned
  | none => false

/-- `set_field_helper` from `doc.cpp` (anonymous namespace): receives the
raw `zvec::Doc*` (null iff the handle's shared pointer is null), checks it
and the field name, then overwrites the field.  Returns the status and the
document (unchanged on the error path). -/
def set_field_helper (doc : Option Doc) (field : Option String) (v : FieldValue) :
    zvec_status × Option Doc :=
  match doc, field with
  | some d, some f => (ok_status, some (d.set f v))
  | _, _ => (local_invalid "Invalid doc or field", doc)

/-- The outcome of a scalar setter: `none` is undefined behaviour (the
call dereferences a null pointer); otherwise the returned status and the
post-state of the handle. -/
abbrev SetOutcome := Option (zvec_status × Option DocHandle)

/-- The common body of the seven scalar setters in `doc.cpp`
(`set_field_helper(doc->ptr.get(), field, value)`): the call site reads
`doc->ptr` before any check, so a null `doc` handle is dereferenced —
undefined behaviour, modelled as `none`. -/
def scalar_set (h : Option DocHandle) (field : Option String) (v : FieldValue) : SetOutcome :=
  match h with
  | none => none
  | some dh =>
      let r := set_field_helper dh.ptr field v
      some (r.1, some { dh with ptr := r.2 })

/-- `zvec_doc_set_bool` from `doc.cpp`. -/
def zvec_doc_set_bool (h : Option DocHandle) (field : Option String) (value : Bool) : SetOutcome :=
  scalar_set h field (.boolV value)

/-- `zvec_doc_set_int32` from `doc.cpp`. -/
def zvec_doc_set_int32 (h : Option DocHandle) (field : Option String) (value : Int) : SetOutcome :=
  scalar_set h field (.int32V value)

/-- `zvec_doc_set_int64` from `doc.cpp`. -/
def zvec_doc_set_int64 (h : Option DocHandle) (field : Option String) (value : Int) : SetOutcome :=
  scalar_set h field (.int64V value)

/-- `zvec_doc_set_uint32` from `doc.cpp`. -/
def zvec_doc_set_uint32 (h : Option DocHandle) (field : Option String) (value : Nat) : SetOutcome :=
  scalar_set h field (.uint32V value)

/-- `zvec_doc_set_uint64` from `doc.cpp`. -/
def zvec_doc_set_uint64 (h : Option DocHandle) (field : Option String) (value : Nat) : SetOutcome :=
  scalar_set h field (.uint64V value)

/-- `zvec_doc_set_float` from `doc.cpp`. -/
def zvec_doc_set_float (h : Option DocHandle) (field : Option String) (value : F32) : SetOutcome :=
  scalar_set h field (.floatV value)

/-- `zvec_doc_set_double` from `doc.cpp`. -/
def zvec_doc_set_double (h : Option DocHandle) (field : Option String) (value : F64) : SetOutcome :=
  scalar_set h field (.doubleV value)

/-- `zvec_doc_set_string` from `doc.cpp`: checks `!doc || !doc->ptr ||
!field` (note: NOT `value`), then runs `std::string(value)` — undefined
behaviour (`none`) when `value` is null. -/
def zvec_doc_set_string (h : Option DocHandle) (field : Option String)
    (value : Option String) : SetOutcome :=
  match h with
  | none => some (local_invalid "Invalid doc or field", none)
  | some dh =>
      match dh.ptr, field with
      | some d, some f =>
          match value with
          | none => none
          | some s => some (ok_status, some { dh with ptr := some (d.set f (.stringV s)) })
      | _, _ => some (local_invalid "Invalid doc or field", some dh)

/-- `zvec_doc_set_vector_fp32` from `doc.cpp`: `data` is the caller's
array of `len` elements (`none` = null pointer). -/
def zvec_doc_set_vector_fp32 (h : Option DocHandle) (field : Option String)
    (data : Option (List F32)) : zvec_status × Option DocHandle :=
  match h with
  | none => (local_invalid "Invalid arguments", none)
  | some dh =>
      match dh.ptr, field, data with
      | some d, some f, some xs =>
          (ok_status, some { dh with ptr := some (d.set f (.vecF32 xs)) })
      | _, _, _ => (local_invalid "Invalid arguments", some dh)

/-- `zvec_doc_set_sparse_vector_fp32` from `doc.cpp`: parallel index and
value arrays whose counts (list lengths) must match; all checks precede
any mutation and no engine call is involved anywhere in the function. -/
def zvec_doc_set_sparse_vector_fp32 (h : Option DocHandle) (field : Option String)
    (indices : Option (List Nat)) (values : Option (List F32)) :
    zvec_status × Option DocHandle :=
  match h with
  | none => (local_invalid "Invalid arguments", none)
  | some dh =>
      match dh.ptr, field, indices, values with
      | some d, some f, some idx, some vals =>
          if idx.length = vals.length then
            (ok_status, some { dh with ptr := some (d.set f (.sparseF32 idx vals)) })
          else (local_invalid "Invalid arguments", some dh)
      | _, _, _, _ => (local_invalid "Invalid arguments", some dh)

/-- The common body of the scalar getters in `doc.cpp`: guard
`doc && doc->ptr && field && out_value`, then a fail-closed typed get;
`some v` models `return true` with `*out_value = v`, `none` models
`return false` with the out-value untouched. -/
def scalar_get {α : Type} (proj : FieldValue → Option α) (h : Option DocHandle)
    (field : Option String) (out_non_null : Bool) : Option α :=
  match h, field, out_non_null with
  | some dh, some f, true => (dh.ptr.bind fun d => d.getTag f).bind proj
  | _, _, _ => none

/-- `zvec_doc_get_bool` from `doc.cpp`. -/
def zvec_doc_get_bool (h : Option DocHandle) (field : Option String)
    (out_non_null : Bool) : Option Bool :=
  scalar_get asBool h field out_non_null

/-- `zvec_doc_get_int32` from `doc.cpp`. -/
def zvec_doc_get_int32 (h : Option DocHandle) (field : Option String)
    (out_non_null : Bool) : Option Int :=
  scalar_get asInt32 h field out_non_null

/-- `zvec_doc_get_int64` from `doc.cpp`. -/
def zvec_doc_get_int64 (h : Option DocHandle) (field : Option String)
    (out_non_null : Bool) : Option Int :=
  scalar_get asInt64 h field out_non_null

/-- `zvec_doc_get_float` from `doc.cpp`. -/
def zvec_doc_get_float (h : Option DocHandle) (field : Option String)
    (out_non_null : Bool) : Option F32 :=
  scalar_get asFloat h field out_non_null

/-- `zvec_doc_get_double` from `doc.cpp`. -/
def zvec_doc_get_double (h : Option DocHandle) (field : Option String)
    (out_non_null : Bool) : Option F64 :=
  scalar_get asDouble h field out_non_null

/-- The owner of the storage a returned `const char*` refers to. -/
inductive StrStorage where
  | handleOwned
  | callLocal
deriving DecidableEq, Repr

/-- `zvec_doc_get_string` from `doc.cpp`: on success it writes
`result.value().c_str()` where `result` is the function-local
`optional<std::string>` returned by `get<std::string>`, so the storage the
out-pointer refers to is local to the call (it is destroyed when the
function returns; the handle's `string_cache` member is never used).  The
`StrStorage` component records that owner, read off the source. -/
def zvec_doc_get_string (h : Option DocHandle) (field : Option String)
    (out_non_null : Bool) : Option (String × StrStorage) :=
  (scalar_get asString h field out_non_null).map fun s => (s, .callLocal)

/-- `zvec_doc_get_vector_fp32` from `doc.cpp`: guard
`doc && doc->ptr && field && out_data && max_len > 0`; on a successful
typed get it copies `min(vec.size(), max_len)` elements (first component:
the contents written to the caller's buffer) and returns `vec.size()`
(second component); every other path returns 0 with nothing copied. -/
def zvec_doc_get_vector_fp32 (h : Option DocHandle) (field : Option String)
    (out_non_null : Bool) (max_len : Nat) : List F32 × Nat :=
  match h, field with
  | some dh, some f =>
      match dh.ptr with
      | some d =>
          if out_non_null ∧ 0 < max_len then
            match (d.getTag f).bind asVecF32 with
            | some vec => (vec.take (min vec.length max_len), vec.length)
            | none => ([], 0)
          else ([], 0)
      | none => ([], 0)
  | _, _ => ([], 0)

/-- `zvec_doc_has` from `doc.cpp`. -/
def zvec_doc_has (h : Option DocHandle) (field : Option String) : Bool :=
  match h, field with
  | some dh, some f =>
      match dh.ptr with
      | some d => d.has f
      | none => false
  | _, _ => false

/-- `struct zvec_doc_list`: `{zvec_doc_t** docs; size_t count}`, the count
being the list length. -/
structure zvec_doc_list where
  docs : List (Option DocHandle)
deriving DecidableEq, Repr

/-- `zvec_doc_list_free` from `doc.cpp`: for each non-null entry it sets
`owned = false` and then calls `zvec_doc_free`, frees the backing array
and zeroes the struct.  The first component records, per entry, whether
that entry's wrapper handle was deallocated (the result of the
`zvec_doc_free` call); the second is the zeroed list. -/
def zvec_doc_list_free (l : zvec_doc_list) : List Bool × zvec_doc_list :=
  (l.docs.map fun od =>
      match od with
      | some dh => zvec_doc_free (some { dh with owned := false })
      | none => false,
   { docs := [] })

/-- Modelled from the spec: the `QueryParams` closed variant set (engine
type, not under `src/`; spec §3): `HNSW{ef_search}` or `IVF{nprobe}`. -/
inductive QueryParams where
  | hnsw (ef_search : Nat)
  | ivf (nprobe : Nat)
deriving DecidableEq, Repr

/-- Modelled from the spec: `zvec::VectorQuery` (engine type, not under
`src/`; spec §3), with exactly the members `query.cpp` assigns.  The
`query_vector_` / sparse buffers are `std::string`s holding the raw bytes
of the copied element sequences; they are modelled by those sequences. -/
structure VectorQuery where
  field_name_ : String := ""
  topk_ : Int := 0
  filter_ : String := ""
  include_vector_ : Bool := false
  include_doc_id_ : Bool := false
  output_fields_ : List String := []
  query_params_ : Option QueryParams := none
  query_vector_ : List F32 := []
  query_sparse_indices_ : List Nat := []
  query_sparse_values_ : List F32 := []
deriving DecidableEq, Repr

/-- `struct zvec_vector_query` from `zvec_c_internal.h`. -/
structure zvec_vector_query where
  query : VectorQuery
deriving DecidableEq, Repr

/-- `zvec_vector_query_new` from `query.cpp`: runs
`std::string(field_name)` unchecked, so a null name is undefined
behaviour (`none`); otherwise a fresh query with `topk_ = 10`. -/
def zvec_vector_query_new (field_name : Option String) : Option zvec_vector_query :=
  field_name.map fun f => { query := { field_name_ := f, topk_ := 10 } }

/-- `zvec_vector_query_set_sparse_vector_fp32` from `query.cpp`: checks
`!query || !indices || !values || indices_count != values_count` before
any mutation; no engine call is involved anywhere in the function.
Returns the status and the post-state of the query handle. -/
def zvec_vector_query_set_sparse_vector_fp32 (q : Option zvec_vector_query)
    (indices : Option (List Nat)) (values : Option (List F32)) :
    zvec_status × Option zvec_vector_query :=
  match q, indices, values with
  | some qh, some idx, some vals =>
      if idx.length = vals.length then
        (ok_status,
         some { qh with query := { qh.query with
                  query_sparse_indices_ := idx, query_sparse_values_ := vals } })
      else (local_invalid "Invalid arguments", some qh)
  | _, _, _ => (local_invalid "Invalid arguments", q)

/-- Modelled from the spec: `zvec::GroupByVectorQuery` (engine type, not
under `src/`; spec §3), with the members `query.cpp` assigns. -/
structure GroupByVectorQuery where
  field_name_ : String := ""
  group_by_field_name_ : String := ""
  group_count_ : Nat := 0
  group_topk_ : Nat := 0
  filter_ : String := ""
  output_fields_ : List String := []
  query_vector_ : List F32 := []
deriving DecidableEq, Repr

/-- `struct zvec_group_by_vector_query` from `zvec_c_internal.h`. -/
structure zvec_group_by_vector_query where
  query : GroupByVectorQuery
deriving DecidableEq, Repr

/-- Modelled from the spec: one engine group-by result
(`group_by_value_`, `docs_`) as consumed by
`zvec_collection_group_by_query`. -/
structure GroupResult where
  group_by_value_ : String
  docs_ : List Doc
deriving DecidableEq, Repr

/-- Modelled from the spec: `zvec::CollectionSchema` (engine type, not
under `src/`; spec §3: name plus a unique-by-name field list).  The
collection facade only copies it across the boundary, so only its
identity-relevant contents are modelled. -/
structure CollectionSchema where
  name : String := ""
  fieldNames : List String := []
deriving DecidableEq, Repr

/-- Modelled from the spec: `zvec::CollectionOptions` (engine type, not
under `src/`; spec §3: read-only, mmap, max buffer size, concurrency). -/
structure CollectionOptions where
  read_only : Bool := false
  mmap_enabled : Bool := false
  max_buffer_size : Nat := 0
  concurrency : Nat := 0
deriving DecidableEq, Repr

/-- Modelled from the spec: `zvec::CollectionStats` (engine type, not
under `src/`); the wrapper reads only `doc_count` from it. -/
structure EngineStats where
  doc_count : Nat := 0
deriving DecidableEq, Repr

/-- `struct zvec_collection_schema` from `zvec_c_internal.h`. -/
structure zvec_collection_schema where
  ptr : Option CollectionSchema
  owned : Bool
deriving DecidableEq, Repr

/-- `struct zvec_collection_options` from `zvec_c_internal.h`. -/
structure zvec_collection_options where
  opts : CollectionOptions
deriving DecidableEq, Repr

/-- `struct zvec_collection_stats` from `zvec_c.h`. -/
structure zvec_collection_stats where
  doc_count : Nat
  memory_usage : Nat
  json_details : Option String
deriving DecidableEq, Repr

/-- `struct zvec_write_results`: `{zvec_status_t* statuses; size_t
count}`, the count being the list length. -/
structure zvec_write_results where
  statuses : List zvec_status
deriving DecidableEq, Repr

/-- `struct zvec_doc_map`: parallel `keys`/`docs` arrays of length
`count`. -/
structure zvec_doc_map where
  keys : List String
  docs : List (Option DocHandle)
deriving DecidableEq, Repr

/-- `struct zvec_group_result` from `zvec_c.h`. -/
structure zvec_group_result where
  group_by_value : Option String
  docs : zvec_doc_list
deriving DecidableEq, Repr

/-- `struct zvec_group_results` from `zvec_c.h`. -/
structure zvec_group_results where
  groups : List zvec_group_result
deriving DecidableEq, Repr

/-- Modelled from the spec: the engine's `zvec::Collection` (external
collaborator, not under `src/`), seen through the methods the facade
calls.  Each field is the engine's response function for one method; the
theorems quantify over them.  Per spec §3, a successful
Insert/Upsert/Update/Delete yields `WriteResults`: one `zvec::Status` per
document/key the engine was given, in order (hypothesised where used). -/
structure EngineCollection where
  pathFn : Except ZStatus String := .error { code := .UNKNOWN, message := "" }
  schemaFn : Except ZStatus CollectionSchema := .error { code := .UNKNOWN, message := "" }
  optionsFn : Except ZStatus CollectionOptions := .error { code := .UNKNOWN, message := "" }
  statsFn : Except ZStatus EngineStats := .error { code := .UNKNOWN, message := "" }
  insertFn : List Doc → Except ZStatus (List ZStatus) :=
    fun _ => .error { code := .UNKNOWN, message := "" }
  upsertFn : List Doc → Except ZStatus (List ZStatus) :=
    fun _ => .error { code := .UNKNOWN, message := "" }
  updateFn : List Doc → Except ZStatus (List ZStatus) :=
    fun _ => .error { code := .UNKNOWN, message := "" }
  deleteFn : List String → Except ZStatus (List ZStatus) :=
    fun _ => .error { code := .UNKNOWN, message := "" }
  queryFn : VectorQuery → Except ZStatus (List Doc) :=
    fun _ => .error { code := .UNKNOWN, message := "" }
  groupByFn : GroupByVectorQuery → Except ZStatus (List GroupResult) :=
    fun _ => .error { code := .UNKNOWN, message := "" }
  fetchFn : List String → Except ZStatus (List (String × Doc)) :=
    fun _ => .error { code := .UNKNOWN, message := "" }

/-- `struct zvec_collection` from `zvec_c_internal.h`: the shared pointer
to the engine collection (`none` = null). -/
structure zvec_collection where
  ptr : Option EngineCollection

/-- The observable outcome of one facade call: the returned status, what
was stored through the out-parameter (`none` = left untouched, whether
because the pointer was null or because the function never wrote), and
whether the engine was invoked. -/
structure CallResult (α : Type) where
  status : zvec_status
  written : Option α
  engineCalled : Bool
deriving DecidableEq, Repr

/-- `zvec_collection_path` from `collection.cpp`. -/
def zvec_collection_path (coll : Option zvec_collection) (out_non_null : Bool) :
    CallResult String :=
  match coll with
  | some c =>
      match c.ptr, out_non_null with
      | some eng, true =>
          match eng.pathFn with
          | .ok p => { status := ok_status, written := some p, engineCalled := true }
          | .error e => { status := to_c_status e, written := none, engineCalled := true }
      | _, _ => { status := local_invalid "Invalid arguments", written := none, engineCalled := false }
  | none => { status := local_invalid "Invalid arguments", written := none, engineCalled := false }

/-- `zvec_collection_schema` from `collection.cpp`: on success the out
pointer receives a freshly allocated handle owning an independent copy of
the engine schema (`owned = true`). -/
def zvec_collection_schema_get (coll : Option zvec_collection) (out_non_null : Bool) :
    CallResult zvec_collection_schema :=
  match coll with
  | some c =>
      match c.ptr, out_non_null with
      | some eng, true =>
          match eng.schemaFn with
          | .ok sch =>
              { status := ok_status, written := some { ptr := some sch, owned := true },
                engineCalled := true }
          | .error e => { status := to_c_status e, written := none, engineCalled := true }
      | _, _ => { status := local_invalid "Invalid arguments", written := none, engineCalled := false }
  | none => { status := local_invalid "Invalid arguments", written := none, engineCalled := false }

/-- `zvec_collection_options` from `collection.cpp`. -/
def zvec_collection_options_get (coll : Option zvec_collection) (out_non_null : Bool) :
    CallResult zvec_collection_options :=
  match coll with
  | some c =>
      match c.ptr, out_non_null with
      | some eng, true =>
          match eng.optionsFn with
          | .ok o =>
              { status := ok_status, written := some { opts := o }, engineCalled := true }
          | .error e => { status := to_c_status e, written := none, engineCalled := true }
      | _, _ => { status := local_invalid "Invalid arguments", written := none, engineCalled := false }
  | none => { status := local_invalid "Invalid arguments", written := none, engineCalled := false }

/-- `zvec_collection_stats` from `collection.cpp`: `memory_usage` is hard
coded to 0 and `json_details` to null. -/
def zvec_collection_stats_get (coll : Option zvec_collection) (out_non_null : Bool) :
    CallResult zvec_collection_stats :=
  match coll with
  | some c =>
      match c.ptr, out_non_null with
      | some eng, true =>
          match eng.statsFn with
          | .ok s =>
              { status := ok_status,
                written := some { doc_count := s.doc_count, memory_usage := 0,
                                  json_details := none },
                engineCalled := true }
          | .error e => { status := to_c_status e, written := none, engineCalled := true }
      | _, _ => { status := local_invalid "Invalid arguments", written := none, engineCalled := false }
  | none => { status := local_invalid "Invalid arguments", written := none, engineCalled := false }

/-- The doc-collection loop shared by insert/upsert/update in
`collection.cpp`: entries whose handle pointer or inner document pointer
is null are silently skipped (`if (docs[i] && docs[i]->ptr)`). -/
def collectDocs (docs : List (Option DocHandle)) : List Doc :=
  docs.filterMap fun od => od.bind fun dh => dh.ptr

/-- `zvec_collection_insert` from `collection.cpp`: `docs` is the
caller's array of `count` handle pointers (`none` = null array); the
out-parameter may be null (`out_non_null = false`), in which case the
per-row statuses are discarded. -/
def zvec_collection_insert (coll : Option zvec_collection)
    (docs : Option (List (Option DocHandle))) (out_non_null : Bool) :
    CallResult zvec_write_results :=
  match coll with
  | some c =>
      match c.ptr, docs with
      | some eng, some ds =>
          if ds.length = 0 then
            { status := local_invalid "Invalid arguments", written := none, engineCalled := false }
          else
            match eng.insertFn (collectDocs ds) with
            | .ok ws =>
                { status := ok_status,
                  written := if out_non_null then some { statuses := ws.map to_c_status } else none,
                  engineCalled := true }
            | .error e => { status := to_c_status e, written := none, engineCalled := true }
      | _, _ => { status := local_invalid "Invalid arguments", written := none, engineCalled := false }
  | none => { status := local_invalid "Invalid arguments", written := none, engineCalled := false }

/-- `zvec_collection_upsert` from `collection.cpp` (same shape as
insert, delegating to `Upsert`). -/
def zvec_collection_upsert (coll : Option zvec_collection)
    (docs : Option (List (Option DocHandle))) (out_non_null : Bool) :
    CallResult zvec_write_results :=
  match coll with
  | some c =>
      match c.ptr, docs with
      | some eng, some ds =>
          if ds.length = 0 then
            { status := local_invalid "Invalid arguments", written := none, engineCalled := false }
          else
            match eng.upsertFn (collectDocs ds) with
            | .ok ws =>
                { status := ok_status,
                  written := if out_non_null then some { statuses := ws.map to_c_status } else none,
                  engineCalled := true }
            | .error e => { status := to_c_status e, written := none, engineCalled := true }
      | _, _ => { status := local_invalid "Invalid arguments", written := none, engineCalled := false }
  | none => { status := local_invalid "Invalid arguments", written := none, engineCalled := false }

/-- `zvec_collection_update` from `collection.cpp` (same shape as
insert, delegating to `Update`). -/
def zvec_collection_update (coll : Option zvec_collection)
    (docs : Option (List (Option DocHandle))) (out_non_null : Bool) :
    CallResult zvec_write_results :=
  match coll with
  | some c =>
      match c.ptr, docs with
      | some eng, some ds =>
          if ds.length = 0 then
            { status := local_invalid "Invalid arguments", written := none, engineCalled := false }
          else
            match eng.updateFn (collectDocs ds) with
            | .ok ws =>
                { status := ok_status,
                  written := if out_non_null then some { statuses := ws.map to_c_status } else none,
                  engineCalled := true }
            | .error e => { status := to_c_status e, written := none, engineCalled := true }
      | _, _ => { status := local_invalid "Invalid arguments", written := none, engineCalled := false }
  | none => { status := local_invalid "Invalid arguments", written := none, engineCalled := false }

/-- Collect a C string array into `std::string`s; a null entry makes
`std::string(pks[i])` undefined behaviour, modelled as `none`. -/
def collectPks : List (Option String) → Option (List String)
  | [] => some []
  | none :: _ => none
  | some s :: rest => (collectPks rest).map fun l => s :: l

/-- `zvec_collection_delete` from `collection.cpp`: like insert but over
primary keys; the key-collection loop has no per-entry null check, so a
null key entry is undefined behaviour (outer `none`). -/
def zvec_collection_delete (coll : Option zvec_collection)
    (pks : Option (List (Option String))) (out_non_null : Bool) :
    Option (CallResult zvec_write_results) :=
  match coll with
  | some c =>
      match c.ptr, pks with
      | some eng, some ks =>
          if ks.length = 0 then
            some { status := local_invalid "Invalid arguments", written := none,
                   engineCalled := false }
          else
            match collectPks ks with
            | none => none
            | some keys =>
                match eng.deleteFn keys with
                | .ok ws =>
                    some { status := ok_status,
                           written :=
                             if out_non_null then some { statuses := ws.map to_c_status } else none,
                           engineCalled := true }
                | .error e =>
                    some { status := to_c_status e, written := none, engineCalled := true }
      | _, _ =>
          some { status := local_invalid "Invalid arguments", written := none,
                 engineCalled := false }
  | none =>
      some { status := local_invalid "Invalid arguments", written := none,
             engineCalled := false }

/-- `zvec_collection_query` from `collection.cpp`: on success the out
list receives one freshly allocated handle per result document, each
sharing the engine-owned document (`owned = false`). -/
def zvec_collection_query (coll : Option zvec_collection)
    (q : Option zvec_vector_query) (out_non_null : Bool) :
    CallResult zvec_doc_list :=
  match coll with
  | some c =>
      match c.ptr, q, out_non_null with
      | some eng, some qh, true =>
          match eng.queryFn qh.query with
          | .ok ds =>
              { status := ok_status,
                written := some { docs := ds.map fun d => some { ptr := some d, owned := false } },
                engineCalled := true }
          | .error e => { status := to_c_status e, written := none, engineCalled := true }
      | _, _, _ =>
          { status := local_invalid "Invalid arguments", written := none, engineCalled := false }
  | none => { status := local_invalid "Invalid arguments", written := none, engineCalled := false }

/-- `zvec_collection_group_by_query` from `collection.cpp`: on success
each group carries a `strdup`-ed group value and one freshly allocated
handle per document, each owning an independent copy
(`make_shared<zvec::Doc>(docs[j])`, `owned = true`). -/
def zvec_collection_group_by_query (coll : Option zvec_collection)
    (q : Option zvec_group_by_vector_query) (out_non_null : Bool) :
    CallResult zvec_group_results :=
  match coll with
  | some c =>
      match c.ptr, q, out_non_null with
      | some eng, some qh, true =>
          match eng.groupByFn qh.query with
          | .ok gs =>
              { status := ok_status,
                written := some { groups := gs.map (fun g =>
                  { group_by_value := some g.group_by_value_,
                    docs := { docs := g.docs_.map (fun d =>
                      some { ptr := some d, owned := true }) } }) },
                engineCalled := true }
          | .error e => { status := to_c_status e, written := none, engineCalled := true }
      | _, _, _ =>
          { status := local_invalid "Invalid arguments", written := none, engineCalled := false }
  | none => { status := local_invalid "Invalid arguments", written := none, engineCalled := false }

/-- `zvec_collection_fetch` from `collection.cpp`: on success the out map
receives, per engine map entry in iteration order, a `strdup`-ed key and a
freshly allocated handle sharing the engine's document pointer with
`owned = false`.  A null key entry in the input array is undefined
behaviour (outer `none`), as in delete. -/
def zvec_collection_fetch (coll : Option zvec_collection)
    (pks : Option (List (Option String))) (out_non_null : Bool) :
    Option (CallResult zvec_doc_map) :=
  match coll with
  | some c =>
      match c.ptr, pks, out_non_null with
      | some eng, some ks, true =>
          if ks.length = 0 then
            some { status := local_invalid "Invalid arguments", written := none,
                   engineCalled := false }
          else
            match collectPks ks with
            | none => none
            | some keys =>
                match eng.fetchFn keys with
                | .ok entries =>
                    some { status := ok_status,
                           written := some
                             { keys := entries.map fun e => e.1,
                               docs := entries.map fun e =>
                                 some { ptr := some e.2, owned := false } },
                           engineCalled := true }
                | .error e =>
                    some { status := to_c_status e, written := none, engineCalled := true }
      | _, _, _ =>
          some { status := local_invalid "Invalid arguments", written := none,
                 engineCalled := false }
  | none =>
      some { status := local_invalid "Invalid arguments", written := none,
             engineCalled := false }

/-- The registry pattern shared by the four `zvec_list_registered_*`
functions in `init.cpp`: `engine` is what the engine's factory reports at
this call, `cached` the function-local static cache, which is
(re)populated whenever it is empty.  Returns the list handed to the
caller and the cache left behind for the next call. -/
def registry_lookup (engine : List String) (cached : List String) :
    List String × List String :=
  if cached.isEmpty then (engine, engine) else (cached, cached)

/-- `zvec_list_registered_metrics` from `init.cpp`, with
`IndexFactory::AllMetrics()` as `engine`. -/
def zvec_list_registered_metrics (engine : List String) (cached : List String) :
    List String × List String :=
  registry_lookup engine cached

/-- `zvec_list_registered_builders` from `init.cpp`. -/
def zvec_list_registered_builders (engine : List String) (cached : List String) :
    List String × List String :=
  registry_lookup engine cached

/-- `zvec_list_registered_searchers` from `init.cpp`. -/
def zvec_list_registered_searchers (engine : List String) (cached : List String) :
    List String × List String :=
  registry_lookup engine cached

/-- `zvec_list_registered_streamers` from `init.cpp`. -/
def zvec_list_registered_streamers (engine : List String) (cached : List String) :
    List String × List String :=
  registry_lookup engine cached

/-! ## Helper lemmas -/

/-- Overwriting a field and looking the same name up yields the new value. -/
theorem lookupField_setField (l : List (String × FieldValue)) (n : String) (v : FieldValue) :
    lookupField (setField l n v) n = some v := by
  induction l with
  | nil => simp [setField, lookupField]
  | cons kv rest ih =>
      obtain ⟨k, w⟩ := kv
      by_cases h : k = n
      · simp [setField, lookupField, h]
      · simp [setField, lookupField, h, ih]

/-! ## Claim theorems for the document value model -/

/-- Claim C3: the claim says `zvec_doc_list_free` frees every contained
borrowed wrapper handle as well as the backing array.  Evaluating the code
on a two-document list produced by `zvec_collection_query`: the backing
array is released and the list zeroed, but the per-wrapper deallocation
record is `[false, false]` — no wrapper handle is ever freed, because the
loop clears `owned` immediately before calling `zvec_doc_free`, which
deletes only owned handles.  Individually releasing a borrowed handle is
likewise a complete no-op (last conjunct). -/
theorem doc_list_free_frees_no_wrappers :
    (zvec_collection_query
        (some { ptr := some { queryFn := fun _ => .ok [{ pk := "a" }, { pk := "b" }] } })
        (zvec_vector_query_new (some "q")) true).written.map zvec_doc_list_free
      = some ([false, false], { docs := [] }) ∧
    zvec_doc_free (some { ptr := some { pk := "a" }, owned := false }) = false := by
  constructor
  · rfl
  · rfl

/-- Claim C4: the claim says every scalar field setter rejects a null doc
handle, a null field name, and (for `zvec_doc_set_string`) a null value
with a locally generated `INVALID_ARGUMENT`, without crashing.  The code
disagrees on two points, shown here: the seven `set_field_helper`-based
setters evaluate `doc->ptr` before any check, so a null handle is
undefined behaviour (modelled `none`, first seven conjuncts), and
`zvec_doc_set_string` never checks `value`, so a null value reaches
`std::string(value)` — undefined behaviour (eighth conjunct).  The null
field name case does behave as claimed (last conjunct). -/
theorem scalar_setters_null_args_undefined :
    (∀ f v, zvec_doc_set_bool none f v = none) ∧
    (∀ f v, zvec_doc_set_int32 none f v = none) ∧
    (∀ f v, zvec_doc_set_int64 none f v = none) ∧
    (∀ f v, zvec_doc_set_uint32 none f v = none) ∧
    (∀ f v, zvec_doc_set_uint64 none f v = none) ∧
    (∀ f v, zvec_doc_set_float none f v = none) ∧
    (∀ f v, zvec_doc_set_double none f v = none) ∧
    (∀ d w, zvec_doc_set_string (some { ptr := some d, owned := w }) (some "f") none = none) ∧
    (∀ dh v, zvec_doc_set_bool (some dh) none v =
      some (local_invalid "Invalid doc or field", some dh)) := by
  refine ⟨fun f v => rfl, fun f v => rfl, fun f v => rfl, fun f v => rfl, fun f v => rfl,
    fun f v => rfl, fun f v => rfl, fun d w => rfl, fun dh v => ?_⟩
  obtain ⟨p, w⟩ := dh
  cases p <;> simp [zvec_doc_set_bool, scalar_set, set_field_helper]

/-- Claim C5 (counterexample): the claim says the fp32 vector getter
returns the true element count for every capacity `max_len`.  On a
document whose field holds a 3-element vector, a call with capacity 0
returns 0, not 3 (the guard requires `max_len > 0`). -/
theorem get_vector_fp32_zero_capacity_returns_zero :
    zvec_doc_get_vector_fp32
        (some { ptr := some { fields := [("v", FieldValue.vecF32 [1, 2, 3])] }, owned := true })
        (some "v") true 0 = ([], 0) ∧
    (zvec_doc_get_vector_fp32
        (some { ptr := some { fields := [("v", FieldValue.vecF32 [1, 2, 3])] }, owned := true })
        (some "v") true 0).2 ≠ 3 := by
  constructor
  · rfl
  · decide

/-- Claim C5 (amended): for every document whose field `f` holds an fp32
vector of length `L`, every non-null caller buffer and every capacity
`max_len ≥ 1`, `zvec_doc_get_vector_fp32` copies `min(L, max_len)`
elements and returns the true count `L`, even when `L > max_len`; a
capacity of 0 instead yields 0. -/
theorem get_vector_fp32_reports_true_count (d : Doc) (f : String) (w : Bool)
    (vec : List F32) (max_len : Nat)
    (hfield : d.getTag f = some (.vecF32 vec)) (hcap : 0 < max_len) :
    zvec_doc_get_vector_fp32 (some { ptr := some d, owned := w }) (some f) true max_len =
      (vec.take (min vec.length max_len), vec.length) := by
  simp [zvec_doc_get_vector_fp32, hfield, hcap, asVecF32]

/-- Witness for the amended C5 theorem at a concrete truncating input:
a 3-element vector read with capacity 2 copies the first 2 elements and
still reports 3. -/
theorem get_vector_fp32_reports_true_count_witness :
    zvec_doc_get_vector_fp32
        (some { ptr := some { fields := [("v", FieldValue.vecF32 [7, 8, 9])] }, owned := true })
        (some "v") true 2 = ([7, 8], 3) := by
  have h := get_vector_fp32_reports_true_count
    { fields := [("v", FieldValue.vecF32 [7, 8, 9])] } "v" true [7, 8, 9] 2
    (by decide) (by decide)
  simpa using h

/-- Claim C6: evaluation of the code's typed set-then-get round trips.
For bool/int32/int64/float/double the boundary getter copies the value
out and yields exactly `v`; the engine-level `get<uint32_t>` /
`get<uint64_t>` (no boundary getter exists for them) likewise round
trip; the fp32 vector round trips through a large-enough buffer; an
absent field has `zvec_doc_has = false` on a fresh document.  For
`T = string` the value the out-pointer refers to is `v`, but its storage
owner is `callLocal`: the pointer aims into the function-local
`optional<std::string>` that is destroyed when `zvec_doc_get_string`
returns, so the caller cannot actually read `v` — the slip the claim's
code-bug verdict rests on. -/
theorem typed_set_get_roundtrip_eval :
    (∀ d w f v, (zvec_doc_set_bool (some { ptr := some d, owned := w }) (some f) v).bind
        (fun r => zvec_doc_get_bool r.2 (some f) true) = some v) ∧
    (∀ d w f (v : Int), (zvec_doc_set_int32 (some { ptr := some d, owned := w }) (some f) v).bind
        (fun r => zvec_doc_get_int32 r.2 (some f) true) = some v) ∧
    (∀ d w f (v : Int), (zvec_doc_set_int64 (some { ptr := some d, owned := w }) (some f) v).bind
        (fun r => zvec_doc_get_int64 r.2 (some f) true) = some v) ∧
    (∀ d w f (v : F32), (zvec_doc_set_float (some { ptr := some d, owned := w }) (some f) v).bind
        (fun r => zvec_doc_get_float r.2 (some f) true) = some v) ∧
    (∀ d w f (v : F64), (zvec_doc_set_double (some { ptr := some d, owned := w }) (some f) v).bind
        (fun r => zvec_doc_get_double r.2 (some f) true) = some v) ∧
    (∀ (d : Doc) f (v : Nat), (d.set f (.uint32V v)).getUInt32 f = some v) ∧
    (∀ (d : Doc) f (v : Nat), (d.set f (.uint64V v)).getUInt64 f = some v) ∧
    (∀ d w f v, (zvec_doc_set_string (some { ptr := some d, owned := w }) (some f) (some v)).bind
        (fun r => zvec_doc_get_string r.2 (some f) true) = some (v, .callLocal)) ∧
    (∀ d w f vec, zvec_doc_get_vector_fp32
        (zvec_doc_set_vector_fp32 (some { ptr := some d, owned := w }) (some f) (some vec)).2
        (some f) true (vec.length + 1) = (vec, vec.length)) ∧
    (∀ f, zvec_doc_has (some zvec_doc_new) (some f) = false) := by
  refine ⟨?_, ?_, ?_, ?_, ?_, ?_, ?_, ?_, ?_, fun f => rfl⟩
  · intro d w f v
    simp [zvec_doc_set_bool, scalar_set, set_field_helper, zvec_doc_get_bool, scalar_get,
      Doc.set, Doc.getTag, lookupField_setField, asBool]
  · intro d w f v
    simp [zvec_doc_set_int32, scalar_set, set_field_helper, zvec_doc_get_int32, scalar_get,
      Doc.set, Doc.getTag, lookupField_setField, asInt32]
  · intro d w f v
    simp [zvec_doc_set_int64, scalar_set, set_field_helper, zvec_doc_get_int64, scalar_get,
      Doc.set, Doc.getTag, lookupField_setField, asInt64]
  · intro d w f v
    simp [zvec_doc_set_float, scalar_set, set_field_helper, zvec_doc_get_float, scalar_get,
      Doc.set, Doc.getTag, lookupField_setField, asFloat]
  · intro d w f v
    simp [zvec_doc_set_double, scalar_set, set_field_helper, zvec_doc_get_double, scalar_get,
      Doc.set, Doc.getTag, lookupField_setField, asDouble]
  · intro d f v
    simp [Doc.set, Doc.getUInt32, Doc.getTag, lookupField_setField, asUInt32]
  · intro d f v
    simp [Doc.set, Doc.getUInt64, Doc.getTag, lookupField_setField, asUInt64]
  · intro d w f v
    simp [zvec_doc_set_string, zvec_doc_get_string, scalar_get,
      Doc.set, Doc.getTag, lookupField_setField, asString]
  · intro d w f vec
    have hmin : min vec.length (vec.length + 1) = vec.length :=
      Nat.min_eq_left (Nat.le_succ _)
    simp [zvec_doc_set_vector_fp32, zvec_doc_get_vector_fp32,
      Doc.set, Doc.getTag, lookupField_setField, asVecF32, hmin]

/-- Claim C7: a sparse-vector setter called with mismatched index/value
counts returns the locally generated `INVALID_ARGUMENT` status and leaves
its target (document resp. query) unchanged, for both
`zvec_doc_set_sparse_vector_fp32` and
`zvec_vector_query_set_sparse_vector_fp32`.  Neither definition takes or
touches the engine: the translated functions are pure mutations of the
handle, so the engine is structurally never invoked. -/
theorem sparse_mismatch_rejected_locally (dh : DocHandle) (f : String)
    (qh : zvec_vector_query) (idx : List Nat) (vals : List F32)
    (hmm : idx.length ≠ vals.length) :
    zvec_doc_set_sparse_vector_fp32 (some dh) (some f) (some idx) (some vals) =
      (local_invalid "Invalid arguments", some dh) ∧
    zvec_vector_query_set_sparse_vector_fp32 (some qh) (some idx) (some vals) =
      (local_invalid "Invalid arguments", some qh) := by
  constructor
  · cases h : dh.ptr with
    | none => simp [zvec_doc_set_sparse_vector_fp32, h]
    | some d => simp [zvec_doc_set_sparse_vector_fp32, h, hmm]
  · simp [zvec_vector_query_set_sparse_vector_fp32, hmm]

/-- Witness for the C7 theorem at a concrete input: one index against an
empty value array on a fresh document handle and a fresh query. -/
theorem sparse_mismatch_rejected_locally_witness :
    zvec_doc_set_sparse_vector_fp32 (some zvec_doc_new) (some "s") (some [1]) (some []) =
      (local_invalid "Invalid arguments", some zvec_doc_new) ∧
    zvec_vector_query_set_sparse_vector_fp32
        (some { query := { field_name_ := "s", topk_ := 10 } }) (some [1]) (some []) =
      (local_invalid "Invalid arguments",
       some { query := { field_name_ := "s", topk_ := 10 } }) :=
  sparse_mismatch_rejected_locally zvec_doc_new "s"
    { query := { field_name_ := "s", topk_ := 10 } } [1] [] (by decide)

/-! ## Claim theorems for the collection facade -/

/-- A batch whose entries are all non-null handles over non-null documents
is forwarded to the engine unchanged and in order. -/
theorem collectDocs_of_forall₂ {l : List (Option DocHandle)} {ds : List Doc}
    (h : List.Forall₂ (fun od d => ∃ dh, od = some dh ∧ dh.ptr = some d) l ds) :
    collectDocs l = ds := by
  induction h with
  | nil => rfl
  | cons h₁ h₂ ih =>
      obtain ⟨dh, rfl, hptr⟩ := h₁
      simp only [collectDocs, List.filterMap_cons, Option.some_bind, hptr]
      simpa [collectDocs] using ih

/-- A key array with no null entries is collected to its strings. -/
theorem collectPks_map_some (l : List String) : collectPks (l.map some) = some l := by
  induction l with
  | nil => rfl
  | cons a t ih => simp [collectPks, ih]

/-- Engine used by the C1 counterexample and witness: every write
operation succeeds with one OK status per forwarded row, i.e. the engine
honours the WriteResults contract. -/
def engPerRowOk : EngineCollection :=
  { insertFn := fun l => .ok (l.map fun _ => { code := .OK, message := "" }),
    upsertFn := fun l => .ok (l.map fun _ => { code := .OK, message := "" }),
    updateFn := fun l => .ok (l.map fun _ => { code := .OK, message := "" }),
    deleteFn := fun l => .ok (l.map fun _ => { code := .OK, message := "" }) }

/-- Claim C1 (counterexample): the claim says a batch write with
top-level OK and non-null `out_results` yields one status per input
element in order, with `out_results->count = N`.  Here the engine itself
honours that contract (it returns one OK status per document it is
given), but the wrapper silently drops the null entry at input index 1,
so a 2-element insert returns top-level OK with only 1 per-row status:
`count = 1 ≠ 2`, and the status at index 1 is missing entirely. -/
theorem insert_null_entry_shrinks_results :
    zvec_collection_insert (some { ptr := some engPerRowOk })
        (some [some { ptr := some { pk := "a" }, owned := true }, none]) true =
      { status := ok_status, written := some { statuses := [ok_status] },
        engineCalled := true } ∧
    (zvec_collection_insert (some { ptr := some engPerRowOk })
        (some [some { ptr := some { pk := "a" }, owned := true }, none]) true).written.map
      (fun w => w.statuses.length) = some 1 := by
  constructor
  · rfl
  · rfl

/-- Claim C1 (amended): for insert/upsert/update batches in which every
entry is a non-null handle over a non-null document, and for delete
batches of non-null keys, a top-level-OK call with non-null `out_results`
returns exactly the engine's per-row statuses in input order:
`out_results->count = N` (given the engine's WriteResults contract of one
status per forwarded row) and the status at index `k` is the marshalled
outcome of input element `k`.  Entries that are null (or whose inner
document pointer is null) are silently dropped before the engine call,
shrinking and misaligning the result — the restriction the counterexample
forces. -/
theorem write_ops_one_status_per_input (eng : EngineCollection)
    (docsList : List (Option DocHandle)) (ds : List Doc) (pks : List String)
    (hds : List.Forall₂ (fun od d => ∃ dh, od = some dh ∧ dh.ptr = some d) docsList ds)
    (hne : docsList ≠ []) (hpk : pks ≠ []) :
    (∀ ws, eng.insertFn ds = .ok ws → ws.length = ds.length →
      zvec_collection_insert (some { ptr := some eng }) (some docsList) true =
        { status := ok_status, written := some { statuses := ws.map to_c_status },
          engineCalled := true } ∧
      (ws.map to_c_status).length = docsList.length) ∧
    (∀ ws, eng.upsertFn ds = .ok ws → ws.length = ds.length →
      zvec_collection_upsert (some { ptr := some eng }) (some docsList) true =
        { status := ok_status, written := some { statuses := ws.map to_c_status },
          engineCalled := true } ∧
      (ws.map to_c_status).length = docsList.length) ∧
    (∀ ws, eng.updateFn ds = .ok ws → ws.length = ds.length →
      zvec_collection_update (some { ptr := some eng }) (some docsList) true =
        { status := ok_status, written := some { statuses := ws.map to_c_status },
          engineCalled := true } ∧
      (ws.map to_c_status).length = docsList.length) ∧
    (∀ ws, eng.deleteFn pks = .ok ws → ws.length = pks.length →
      zvec_collection_delete (some { ptr := some eng }) (some (pks.map some)) true =
        some { status := ok_status, written := some { statuses := ws.map to_c_status },
               engineCalled := true } ∧
      (ws.map to_c_status).length = pks.length) ∧
    (∀ (ws : List ZStatus) (k : Nat),
      (ws.map to_c_status)[k]? = (ws[k]?).map to_c_status) := by
  have h0 : ¬ docsList.length = 0 := by
    simpa [List.length_eq_zero] using hne
  have hcd := collectDocs_of_forall₂ hds
  refine ⟨?_, ?_, ?_, ?_, fun ws k => List.getElem?_map to_c_status ws k⟩
  · intro ws hws hlen
    constructor
    · simp [zvec_collection_insert, h0, hcd, hws]
    · simp [List.length_map, hlen, hds.length_eq]
  · intro ws hws hlen
    constructor
    · simp [zvec_collection_upsert, h0, hcd, hws]
    · simp [List.length_map, hlen, hds.length_eq]
  · intro ws hws hlen
    constructor
    · simp [zvec_collection_update, h0, hcd, hws]
    · simp [List.length_map, hlen, hds.length_eq]
  · intro ws hws hlen
    have hp0 : ¬ (pks.map some).length = 0 := by
      simpa [List.length_eq_zero] using hpk
    constructor
    · simp [zvec_collection_delete, hp0, hpk, collectPks_map_some, hws]
    · simp [List.length_map, hlen]

/-- Witness for the amended C1 theorem: a singleton batch against an
engine returning one OK status per row, for all four operations. -/
theorem write_ops_one_status_per_input_witness :
    zvec_collection_insert
        (some { ptr := some engPerRowOk }) (some [some { ptr := some { pk := "a" }, owned := true }]) true =
      { status := ok_status, written := some { statuses := [ok_status] },
        engineCalled := true } ∧
    zvec_collection_delete (some { ptr := some engPerRowOk }) (some [some "a"]) true =
      some { status := ok_status, written := some { statuses := [ok_status] },
             engineCalled := true } := by
  have h := write_ops_one_status_per_input engPerRowOk
    [some { ptr := some { pk := "a" }, owned := true }] [{ pk := "a" }] ["a"]
    (List.Forall₂.cons ⟨_, rfl, rfl⟩ List.Forall₂.nil) (by decide) (by decide)
  exact ⟨(h.1 [{ code := .OK, message := "" }] rfl rfl).1,
         (h.2.2.2.1 [{ code := .OK, message := "" }] rfl rfl).1⟩

/-- Claim C2 (counterexample): the claim says each document handle in a
successful fetch result is an independently owned copy (`owned = true`,
like group-by query results).  Fetching one existing key shows the code
instead returns a handle that shares the engine's document and is tagged
`owned = false`; the second conjunct extracts the ownership flags. -/
theorem fetch_docs_not_owned :
    zvec_collection_fetch
        (some { ptr := some { fetchFn := fun _ => .ok [("k", { pk := "k" })] } })
        (some [some "k"]) true =
      some { status := ok_status,
             written := some { keys := ["k"],
                               docs := [some { ptr := some { pk := "k" }, owned := false }] },
             engineCalled := true } ∧
    ((zvec_collection_fetch
        (some { ptr := some { fetchFn := fun _ => .ok [("k", { pk := "k" })] } })
        (some [some "k"]) true).bind (fun r => r.written)).map
      (fun m => m.docs.map (fun od => od.map DocHandle.owned)) = some [some false] := by
  constructor
  · rfl
  · rfl

/-- Claim C2 (amended): each document handle in a successful fetch result
is a borrowed wrapper — `owned = false`, sharing the engine's document —
exactly like query results and unlike `zvec_collection_group_by_query`,
whose result handles are independently owned copies (`owned = true`).
Consequently a fetch-returned handle cannot be released individually:
`zvec_doc_free` on an `owned = false` handle deallocates nothing. -/
theorem fetch_borrowed_groupby_owned :
    (∀ (eng : EngineCollection) pks out r m,
      zvec_collection_fetch (some { ptr := some eng }) pks out = some r →
      r.written = some m →
      ∀ od ∈ m.docs, ∃ dh, od = some dh ∧ dh.owned = false ∧
        zvec_doc_free (some dh) = false) ∧
    (∀ (eng : EngineCollection) q out m,
      (zvec_collection_group_by_query (some { ptr := some eng }) q out).written = some m →
      ∀ g ∈ m.groups, ∀ od ∈ g.docs.docs, ∃ dh, od = some dh ∧ dh.owned = true) := by
  constructor
  · intro eng pks out r m hr hm od hod
    rcases pks with _ | ks
    · simp only [zvec_collection_fetch, Option.some.injEq] at hr
      rw [← hr] at hm
      simp at hm
    · cases out
      · simp only [zvec_collection_fetch, Option.some.injEq] at hr
        rw [← hr] at hm
        simp at hm
      · by_cases h0 : ks.length = 0
        · simp only [zvec_collection_fetch, if_pos h0, Option.some.injEq] at hr
          rw [← hr] at hm
          simp at hm
        · have h0' : ¬ ks = [] := fun he => h0 (by simp [he])
          rcases hk : collectPks ks with _ | keys
          · simp [zvec_collection_fetch, h0', hk] at hr
          · rcases hf : eng.fetchFn keys with e | entries
            · simp only [zvec_collection_fetch, if_neg h0, hk, hf, Option.some.injEq] at hr
              rw [← hr] at hm
              simp at hm
            · simp only [zvec_collection_fetch, if_neg h0, hk, hf, Option.some.injEq] at hr
              rw [← hr] at hm
              simp only [Option.some.injEq] at hm
              rw [← hm] at hod
              simp only [List.mem_map] at hod
              obtain ⟨e, he, rfl⟩ := hod
              exact ⟨_, rfl, rfl, rfl⟩
  · intro eng q out m hm g hg od hod
    rcases q with _ | qh
    · simp [zvec_collection_group_by_query] at hm
    · cases out
      · simp [zvec_collection_group_by_query] at hm
      · rcases hq : eng.groupByFn qh.query with e | gs
        · simp [zvec_collection_group_by_query, hq] at hm
        · simp only [zvec_collection_group_by_query, hq, Option.some.injEq] at hm
          rw [← hm] at hg
          simp only [List.mem_map] at hg
          obtain ⟨g0, hg0, rfl⟩ := hg
          simp only [List.mem_map] at hod
          obtain ⟨d0, hd0, rfl⟩ := hod
          exact ⟨_, rfl, rfl⟩

/-- Engine used by the C2 witness: one fetchable document and one
single-document group. -/
def engFetchGroup : EngineCollection :=
  { fetchFn := fun _ => .ok [("k", { pk := "k" })],
    groupByFn := fun _ => .ok [{ group_by_value_ := "gv", docs_ := [{ pk := "g" }] }] }

/-- Witness for the amended C2 theorem at concrete inputs: the fetched
handle is borrowed, the group-by handle owned. -/
theorem fetch_borrowed_groupby_owned_witness :
    (∃ dh, (some { ptr := some { pk := "k" }, owned := false } : Option DocHandle) = some dh ∧
      dh.owned = false ∧ zvec_doc_free (some dh) = false) ∧
    (∃ dh, (some { ptr := some { pk := "g" }, owned := true } : Option DocHandle) = some dh ∧
      dh.owned = true) := by
  constructor
  · exact fetch_borrowed_groupby_owned.1 engFetchGroup (some [some "k"]) true _
      { keys := ["k"], docs := [some { ptr := some { pk := "k" }, owned := false }] }
      rfl rfl _ (by simp)
  · exact fetch_borrowed_groupby_owned.2 engFetchGroup
      (some { query := { field_name_ := "v" } }) true
      { groups := [{ group_by_value := some "gv",
                     docs := { docs := [some { ptr := some { pk := "g" }, owned := true }] } }] }
      rfl
      { group_by_value := some "gv",
        docs := { docs := [some { ptr := some { pk := "g" }, owned := true }] } }
      (by simp) _ (by simp)

/-- Claim C8: every listed Status-returning accessor writes its
out-parameter only when the returned code is OK; whenever the returned
code is not OK (boundary-local INVALID_ARGUMENT or a forwarded engine
error) the out-parameter is left untouched (`written = none`). -/
theorem out_params_untouched_unless_ok :
    (∀ coll out, (zvec_collection_path coll out).status.code ≠ .OK →
        (zvec_collection_path coll out).written = none) ∧
    (∀ coll out, (zvec_collection_schema_get coll out).status.code ≠ .OK →
        (zvec_collection_schema_get coll out).written = none) ∧
    (∀ coll out, (zvec_collection_options_get coll out).status.code ≠ .OK →
        (zvec_collection_options_get coll out).written = none) ∧
    (∀ coll out, (zvec_collection_stats_get coll out).status.code ≠ .OK →
        (zvec_collection_stats_get coll out).written = none) ∧
    (∀ coll q out, (zvec_collection_query coll q out).status.code ≠ .OK →
        (zvec_collection_query coll q out).written = none) ∧
    (∀ coll q out, (zvec_collection_group_by_query coll q out).status.code ≠ .OK →
        (zvec_collection_group_by_query coll q out).written = none) ∧
    (∀ coll pks out r, zvec_collection_fetch coll pks out = some r →
        r.status.code ≠ .OK → r.written = none) := by
  refine ⟨?_, ?_, ?_, ?_, ?_, ?_, ?_⟩
  · intro coll out
    rcases coll with _ | ⟨p⟩
    · intro h; rfl
    · rcases p with _ | eng
      · cases out <;> (intro h; rfl)
      · cases out
        · intro h; rfl
        · rcases hp : eng.pathFn with e | s
          · intro h; simp [zvec_collection_path, hp]
          · intro h; exfalso; apply h; simp [zvec_collection_path, hp, ok_status]
  · intro coll out
    rcases coll with _ | ⟨p⟩
    · intro h; rfl
    · rcases p with _ | eng
      · cases out <;> (intro h; rfl)
      · cases out
        · intro h; rfl
        · rcases hp : eng.schemaFn with e | s
          · intro h; simp [zvec_collection_schema_get, hp]
          · intro h; exfalso; apply h; simp [zvec_collection_schema_get, hp, ok_status]
  · intro coll out
    rcases coll with _ | ⟨p⟩
    · intro h; rfl
    · rcases p with _ | eng
      · cases out <;> (intro h; rfl)
      · cases out
        · intro h; rfl
        · rcases hp : eng.optionsFn with e | s
          · intro h; simp [zvec_collection_options_get, hp]
          · intro h; exfalso; apply h; simp [zvec_collection_options_get, hp, ok_status]
  · intro coll out
    rcases coll with _ | ⟨p⟩
    · intro h; rfl
    · rcases p with _ | eng
      · cases out <;> (intro h; rfl)
      · cases out
        · intro h; rfl
        · rcases hp : eng.statsFn with e | s
          · intro h; simp [zvec_collection_stats_get, hp]
          · intro h; exfalso; apply h; simp [zvec_collection_stats_get, hp, ok_status]
  · intro coll q out
    rcases coll with _ | ⟨p⟩
    · intro h; rfl
    · rcases p with _ | eng
      · rcases q with _ | qh <;> cases out <;> (intro h; rfl)
      · rcases q with _ | qh
        · cases out <;> (intro h; rfl)
        · cases out
          · intro h; rfl
          · rcases hp : eng.queryFn qh.query with e | ds
            · intro h; simp [zvec_collection_query, hp]
            · intro h; exfalso; apply h; simp [zvec_collection_query, hp, ok_status]
  · intro coll q out
    rcases coll with _ | ⟨p⟩
    · intro h; rfl
    · rcases p with _ | eng
      · rcases q with _ | qh <;> cases out <;> (intro h; rfl)
      · rcases q with _ | qh
        · cases out <;> (intro h; rfl)
        · cases out
          · intro h; rfl
          · rcases hp : eng.groupByFn qh.query with e | gs
            · intro h; simp [zvec_collection_group_by_query, hp]
            · intro h; exfalso; apply h
              simp [zvec_collection_group_by_query, hp, ok_status]
  · intro coll pks out r hr h
    rcases coll with _ | ⟨p⟩
    · simp only [zvec_collection_fetch, Option.some.injEq] at hr
      subst hr; rfl
    · rcases p with _ | eng
      · rcases pks with _ | ks <;> cases out <;>
          (simp only [zvec_collection_fetch, Option.some.injEq] at hr; subst hr; rfl)
      · rcases pks with _ | ks
        · cases out <;>
            (simp only [zvec_collection_fetch, Option.some.injEq] at hr; subst hr; rfl)
        · cases out
          · simp only [zvec_collection_fetch, Option.some.injEq] at hr
            subst hr; rfl
          · by_cases h0 : ks.length = 0
            · simp only [zvec_collection_fetch, if_pos h0, Option.some.injEq] at hr
              subst hr; rfl
            · have h0' : ¬ ks = [] := fun he => h0 (by simp [he])
              rcases hk : collectPks ks with _ | keys
              · simp [zvec_collection_fetch, h0', hk] at hr
              · rcases hf : eng.fetchFn keys with e | entries
                · simp only [zvec_collection_fetch, if_neg h0, hk, hf,
                    Option.some.injEq] at hr
                  subst hr; rfl
                · simp only [zvec_collection_fetch, if_neg h0, hk, hf,
                    Option.some.injEq] at hr
                  subst hr
                  exact absurd rfl h

/-- Witness for the C8 theorem: each accessor instantiated at a concrete
failing call (null collection handle) has its out-parameter untouched. -/
theorem out_params_untouched_unless_ok_witness :
    (zvec_collection_path none true).written = none ∧
    (zvec_collection_schema_get none true).written = none ∧
    (zvec_collection_options_get none true).written = none ∧
    (zvec_collection_stats_get none true).written = none ∧
    (zvec_collection_query none none true).written = none ∧
    (zvec_collection_group_by_query none none true).written = none ∧
    ({ status := local_invalid "Invalid arguments", written := none,
       engineCalled := false } : CallResult zvec_doc_map).written = none :=
  ⟨out_params_untouched_unless_ok.1 none true (by decide),
   out_params_untouched_unless_ok.2.1 none true (by decide),
   out_params_untouched_unless_ok.2.2.1 none true (by decide),
   out_params_untouched_unless_ok.2.2.2.1 none true (by decide),
   out_params_untouched_unless_ok.2.2.2.2.1 none none true (by decide),
   out_params_untouched_unless_ok.2.2.2.2.2.1 none none true (by decide),
   out_params_untouched_unless_ok.2.2.2.2.2.2 none (some [some "k"]) true
     { status := local_invalid "Invalid arguments", written := none, engineCalled := false }
     rfl (by decide)⟩

/-- Claim C10: an empty batch (`count == 0`) passed to insert, upsert,
update, delete or fetch is rejected with the locally generated
`INVALID_ARGUMENT` status before the engine is invoked
(`engineCalled = false`), with the out-parameter untouched — there is no
OK-with-empty-results outcome. -/
theorem empty_batch_rejected :
    (∀ coll out, zvec_collection_insert coll (some []) out =
      { status := local_invalid "Invalid arguments", written := none,
        engineCalled := false }) ∧
    (∀ coll out, zvec_collection_upsert coll (some []) out =
      { status := local_invalid "Invalid arguments", written := none,
        engineCalled := false }) ∧
    (∀ coll out, zvec_collection_update coll (some []) out =
      { status := local_invalid "Invalid arguments", written := none,
        engineCalled := false }) ∧
    (∀ coll out, zvec_collection_delete coll (some []) out =
      some { status := local_invalid "Invalid arguments", written := none,
             engineCalled := false }) ∧
    (∀ coll out, zvec_collection_fetch coll (some []) out =
      some { status := local_invalid "Invalid arguments", written := none,
             engineCalled := false }) := by
  refine ⟨?_, ?_, ?_, ?_, ?_⟩ <;>
    · intro coll out
      rcases coll with _ | ⟨p⟩
      · rfl
      · rcases p with _ | eng
        · cases out <;> rfl
        · cases out <;> rfl

/-! ## Claim theorems for the process-wide registries -/

/-- Claim C9 (counterexample): the claim says the registry is populated
on the first query and never invalidated, so every later call returns
exactly the first call's list.  But the cache test is emptiness: when the
first query observes an empty engine list, the next call re-queries the
engine — here the first call returns `[]` and the second returns
`["l2"]`, which differs from the first call's list. -/
theorem registry_requeried_while_empty :
    (zvec_list_registered_metrics [] []).1 = [] ∧
    (zvec_list_registered_metrics ["l2"] (zvec_list_registered_metrics [] []).2).1 = ["l2"] ∧
    (zvec_list_registered_metrics ["l2"] (zvec_list_registered_metrics [] []).2).1 ≠
      (zvec_list_registered_metrics [] []).1 := by
  refine ⟨rfl, rfl, ?_⟩
  decide

/-- Claim C9 (amended): each registry is populated from the engine on the
first query that observes a non-empty list and never invalidated
thereafter: once the cache is non-empty, every call returns exactly the
cached list and leaves it unchanged, whatever the engine now reports;
while the cache is empty, each call re-queries the engine. -/
theorem registry_frozen_once_nonempty (engine cached : List String) (h : cached ≠ []) :
    zvec_list_registered_metrics engine cached = (cached, cached) ∧
    zvec_list_registered_builders engine cached = (cached, cached) ∧
    zvec_list_registered_searchers engine cached = (cached, cached) ∧
    zvec_list_registered_streamers engine cached = (cached, cached) ∧
    zvec_list_registered_metrics engine [] = (engine, engine) := by
  have h' : cached.isEmpty = false := by
    cases cached
    · exact absurd rfl h
    · rfl
  simp [zvec_list_registered_metrics, zvec_list_registered_builders,
    zvec_list_registered_searchers, zvec_list_registered_streamers, registry_lookup, h']

/-- Witness for the amended C9 theorem: a non-empty cache `["l2"]` is
returned unchanged even though the engine now reports `["ip"]`. -/
theorem registry_frozen_once_nonempty_witness :
    zvec_list_registered_metrics ["ip"] ["l2"] = (["l2"], ["l2"]) ∧
    zvec_list_registered_builders ["ip"] ["l2"] = (["l2"], ["l2"]) ∧
    zvec_list_registered_searchers ["ip"] ["l2"] = (["l2"], ["l2"]) ∧
    zvec_list_registered_streamers ["ip"] ["l2"] = (["l2"], ["l2"]) ∧
    zvec_list_registered_metrics ["ip"] [] = (["ip"], ["ip"]) :=
  registry_frozen_once_nonempty ["ip"] ["l2"] (by decide)

end ZvecC
